import Mathlib

/-!
Shallow embedding of `src/server.js`, a minimal Express CRUD service over an
in-memory list of post records with multer file uploads.

Modelling choices:
* JavaScript field values coming from request bodies are modelled by `JVal`
  (`undef` = property absent / `undefined`, `null`, or a string), so that
  JS truthiness and the `a || b` coalescing operator are expressed exactly.
* The multer `diskStorage` engine and the route handlers are translated
  directly; the values produced by `uuidv4()` and `Date.now()` are inputs
  (an `Env`), since they come from the environment.
* The filesystem is an association list from paths to byte lists;
  `fs.writeFileSync` overwrites an existing entry.
* `isNaN(s)` for a string `s` is ECMAScript `Number(s)` being NaN; the
  StringToNumber grammar (trimmed empty string, signed decimal literal with
  optional fraction/exponent, `Infinity`, and unsigned hex/octal/binary
  literals) is implemented as a decidable recogniser `jsStringNumeric`.
-/

/-- A JavaScript value as it appears in a request-body field: absent
(`undefined`), `null`, or a string. -/
inductive JVal where
  | undef : JVal
  | null : JVal
  | str : String → JVal
deriving Repr, DecidableEq

/-- JS truthiness restricted to `JVal`: `undefined` and `null` are falsy and a
string is truthy iff it is non-empty. -/
def JVal.truthy : JVal → Bool
  | JVal.str s => !(s == "")
  | _ => false

/-- The string carried by a `JVal.str`; `""` otherwise (only ever used on
truthy values, which are strings). -/
def JVal.asString : JVal → String
  | JVal.str s => s
  | _ => ""

/-- JS `a || b`: the left operand when truthy, otherwise the right one. -/
def jsOr (a b : JVal) : JVal := if a.truthy then a else b

/-- ECMAScript StrWhiteSpace: WhiteSpace and LineTerminator code points,
stripped by StringToNumber before parsing. -/
def isJsWhite (c : Char) : Bool :=
  c == ' ' || c == '\t' || c == '\n' || c == '\r' ||
  c.val == 0x0B || c.val == 0x0C || c.val == 0xA0 || c.val == 0xFEFF ||
  c.val == 0x1680 || (0x2000 ≤ c.val && c.val ≤ 0x200A) ||
  c.val == 0x2028 || c.val == 0x2029 || c.val == 0x202F ||
  c.val == 0x205F || c.val == 0x3000

/-- Strip leading and trailing JS whitespace from a character list. -/
def trimJs (cs : List Char) : List Char :=
  ((cs.dropWhile isJsWhite).reverse.dropWhile isJsWhite).reverse

/-- One-or-more decimal digits with an optional leading sign
(the ExponentPart's SignedInteger). -/
def signedDigitsOk : List Char → Bool
  | [] => false
  | c :: r =>
    if c == '+' || c == '-' then !r.isEmpty && r.all Char.isDigit
    else c.isDigit && r.all Char.isDigit

/-- An optional ExponentPart occupying the whole list: empty, or
`e`/`E` followed by a SignedInteger. -/
def expPartOk : List Char → Bool
  | [] => true
  | c :: r => (c == 'e' || c == 'E') && signedDigitsOk r

/-- StrUnsignedDecimalLiteral: `Infinity`, or decimal digits with an optional
fraction and an optional exponent (at least one digit overall). -/
def unsignedDecOk (cs : List Char) : Bool :=
  if cs == "Infinity".toList then true
  else
    let d1 := cs.takeWhile Char.isDigit
    let r1 := cs.dropWhile Char.isDigit
    match r1 with
    | '.' :: r2 =>
      let d2 := r2.takeWhile Char.isDigit
      let r3 := r2.dropWhile Char.isDigit
      (!d1.isEmpty || !d2.isEmpty) && expPartOk r3
    | _ => !d1.isEmpty && expPartOk r1

/-- StrDecimalLiteral: StrUnsignedDecimalLiteral with an optional sign. -/
def strDecimalOk : List Char → Bool
  | '+' :: r => unsignedDecOk r
  | '-' :: r => unsignedDecOk r
  | cs => unsignedDecOk cs

/-- Hexadecimal digit. -/
def isHexDigitChar (c : Char) : Bool :=
  c.isDigit || ('a' ≤ c && c ≤ 'f') || ('A' ≤ c && c ≤ 'F')

/-- Octal digit. -/
def isOctDigitChar (c : Char) : Bool := '0' ≤ c && c ≤ '7'

/-- Binary digit. -/
def isBinDigitChar (c : Char) : Bool := c == '0' || c == '1'

/-- NonDecimalIntegerLiteral: `0x`/`0X`, `0o`/`0O` or `0b`/`0B` followed by
one or more digits of the corresponding base (no sign allowed). -/
def nonDecimalOk : List Char → Bool
  | '0' :: c :: r =>
    ((c == 'x' || c == 'X') && !r.isEmpty && r.all isHexDigitChar) ||
    ((c == 'o' || c == 'O') && !r.isEmpty && r.all isOctDigitChar) ||
    ((c == 'b' || c == 'B') && !r.isEmpty && r.all isBinDigitChar)
  | _ => false

/-- `Number(s)` is a well-defined (non-NaN) number: after trimming JS
whitespace the remainder is empty (value 0), a signed decimal literal, or a
non-decimal integer literal. -/
def jsStringNumeric (s : String) : Bool :=
  let cs := trimJs s.toList
  cs.isEmpty || strDecimalOk cs || nonDecimalOk cs

/-- JS `isNaN(s)` for a string argument: `Number(s)` is NaN. -/
def jsIsNaN (s : String) : Bool := !jsStringNumeric s

/-- JS `isNaN(v)` on a request-body value: `Number(undefined)` is NaN,
`Number(null)` is `0`, strings go through StringToNumber. -/
def jsIsNaNJ : JVal → Bool
  | JVal.undef => true
  | JVal.null => false
  | JVal.str s => jsIsNaN s

/-- The basename step of Node's `path.extname`: the part of the path after
the last `/`. -/
def lastPathComponent (cs : List Char) : List Char :=
  ((cs.reverse.takeWhile (fun c => !(c == '/')))).reverse

/-- Extension of a basename: from the last `.` to the end; empty when there
is no `.` or when the only `.` is the first character. -/
def extAfterLastDot (base : List Char) : List Char :=
  let rev := base.reverse
  let afterDot := rev.takeWhile (fun c => !(c == '.'))
  match rev.dropWhile (fun c => !(c == '.')) with
  | [] => []
  | _ :: before => if before.isEmpty then [] else '.' :: afterDot.reverse

/-- Node `path.extname`. -/
def extname (s : String) : String :=
  String.mk (extAfterLastDot (lastPathComponent s.toList))

/-- An uploaded multipart file part as multer sees it. -/
structure FilePart where
  originalname : String
  mimetype : String
  content : List Nat
deriving Repr, DecidableEq

/-- The first list is an initial segment of the second. -/
def leadsList : List Char → List Char → Bool
  | [], _ => true
  | _ :: _, [] => false
  | a :: as, b :: bs => a == b && leadsList as bs

/-- JS `s.startsWith(pre)`. -/
def jsStartsWith (s pre : String) : Bool := leadsList pre.toList s.toList

/-- `destination` callback of the multer `diskStorage`: mimetype beginning
with `video` goes to `uploads/videos`, anything else to `uploads/images`. -/
def multerDest (f : FilePart) : String :=
  if jsStartsWith f.mimetype "video" then "uploads/videos" else "uploads/images"

/-- `filename` callback of the multer `diskStorage`:
`` `${uuidv4()}-${Date.now()}${path.extname(file.originalname)}` ``. -/
def multerFilename (uuid : String) (now : Nat) (f : FilePart) : String :=
  uuid ++ "-" ++ toString now ++ extname f.originalname

/-- Full on-disk path at which multer stores a file part. -/
def multerPath (uuid : String) (now : Nat) (f : FilePart) : String :=
  multerDest f ++ "/" ++ multerFilename uuid now f

/-- The filesystem: an association list from paths to byte contents. -/
def Disk := List (String × List Nat)
deriving Repr, DecidableEq

/-- Write a file: overwrite the entry for the path if present, else add it. -/
def writeFile : Disk → String → List Nat → Disk
  | [], p, c => [(p, c)]
  | e :: d, p, c => if e.1 == p then (p, c) :: d else e :: writeFile d p c

/-- Read a file's bytes from the disk, `none` when no such path exists. -/
def readFile (d : Disk) (p : String) : Option (List Nat) :=
  (List.find? (fun e => e.1 == p) d).map (fun e => e.2)

/-- A post record as built by the `POST /posts` handler. `id` is always a
string; the other fields hold whatever JS value was assigned. -/
structure Post where
  id : String
  title : JVal
  description : JVal
  image : JVal
  video : JVal
  actress : JVal
deriving Repr, DecidableEq

/-- The environment values consumed by one `POST /posts` request: the
`uuidv4()` / `Date.now()` results for the image file, the video file, and
the fallback post id. -/
structure Env where
  imgUuid : String
  imgNow : Nat
  vidUuid : String
  vidNow : Nat
  idUuid : String
deriving Repr, DecidableEq

/-- A `POST /posts` multipart request: the four text fields and the two
optional file parts (`upload.fields` caps each at one file). -/
structure CreateRequest where
  id : JVal
  title : JVal
  description : JVal
  actress : JVal
  imageFile : Option FilePart
  videoFile : Option FilePart
deriving Repr, DecidableEq

/-- A `PUT /posts/:id` JSON body. The handler destructures only `title`,
`description` and `actress`; the other fields model a caller supplying
`image` / `video` / `id`, which the handler ignores. -/
structure PutBody where
  title : JVal
  description : JVal
  actress : JVal
  image : JVal
  video : JVal
  id : JVal
deriving Repr, DecidableEq

/-- The mutable server state: the `posts` array and the filesystem. -/
structure ServerState where
  posts : List Post
  disk : Disk
deriving Repr, DecidableEq

/-- An HTTP response for the single-record endpoints: status code, optional
`message` field, optional `post` payload. -/
structure Response where
  status : Nat
  message : Option String
  post : Option Post
deriving Repr, DecidableEq

/-- The multer middleware step of `POST /posts`: store the image part, then
the video part, each at its `diskStorage`-chosen path. -/
def multerSaveFiles (req : CreateRequest) (env : Env) (d : Disk) : Disk :=
  let d1 :=
    match req.imageFile with
    | some f => writeFile d (multerPath env.imgUuid env.imgNow f) f.content
    | none => d
  match req.videoFile with
  | some f => writeFile d1 (multerPath env.vidUuid env.vidNow f) f.content
  | none => d1

/-- The `image` value stored by the `POST /posts` handler: the public
reference path (always under `/uploads/images/`) when an image part was
uploaded, JS `null` otherwise. -/
def uploadedImageRef (req : CreateRequest) (env : Env) : JVal :=
  match req.imageFile with
  | some f => JVal.str ("/uploads/images/" ++ multerFilename env.imgUuid env.imgNow f)
  | none => JVal.null

/-- The `video` value stored by the `POST /posts` handler: the public
reference path (always under `/uploads/videos/`) when a video part was
uploaded, JS `null` otherwise. -/
def uploadedVideoRef (req : CreateRequest) (env : Env) : JVal :=
  match req.videoFile with
  | some f => JVal.str ("/uploads/videos/" ++ multerFilename env.vidUuid env.vidNow f)
  | none => JVal.null

/-- The `newPost` record assembled by the `POST /posts` handler:
`postId = id || uuidv4()`, text fields as supplied, media reference paths
or `null`. -/
def newPostOf (req : CreateRequest) (env : Env) : Post :=
  { id := if req.id.truthy then req.id.asString else env.idUuid,
    title := req.title, description := req.description,
    image := uploadedImageRef req env, video := uploadedVideoRef req env,
    actress := req.actress }

/-- `POST /posts`: multer writes the uploaded files, then the handler
validates `id` (400 when supplied and `isNaN`), falls back to `uuidv4()`
for the id, builds the record with `/uploads/...` reference paths (or
`null`), appends it to `posts` and answers 201. -/
def postPosts (req : CreateRequest) (env : Env) (s : ServerState) :
    Response × ServerState :=
  let disk1 := multerSaveFiles req env s.disk
  if req.id.truthy && jsIsNaNJ req.id then
    ({ status := 400, message := some "ID must be a valid number", post := none },
     { s with disk := disk1 })
  else
    ({ status := 201, message := some "Post created successfully",
       post := some (newPostOf req env) },
     { posts := s.posts ++ [newPostOf req env], disk := disk1 })

/-- `GET /posts`: status 200 and the whole `posts` array, as is. -/
def getPosts (s : ServerState) : Nat × List Post := (200, s.posts)

/-- `GET /posts/:id`: `posts.find` by exact string equality on `id`;
200 with the record, or 404 `Post not found`. -/
def getPostById (pid : String) (s : ServerState) : Response :=
  match s.posts.find? (fun p => p.id == pid) with
  | some p => { status := 200, message := none, post := some p }
  | none => { status := 404, message := some "Post not found", post := none }

/-- The in-place mutation of the found record in `PUT /posts/:id`:
`post.title = title || post.title` and likewise for `description` and
`actress`. -/
def coalescePost (p : Post) (b : PutBody) : Post :=
  { p with
    title := jsOr b.title p.title,
    description := jsOr b.description p.description,
    actress := jsOr b.actress p.actress }

/-- The effect of `PUT /posts/:id`'s in-place mutation on the array: the
first record whose `id` matches is replaced by its coalesced version. -/
def updateFirst (pid : String) (b : PutBody) : List Post → List Post
  | [] => []
  | p :: ps => if p.id == pid then coalescePost p b :: ps else p :: updateFirst pid b ps

/-- `PUT /posts/:id`: find by exact string equality; if found, coalesce the
three mutable fields and answer 200 with the updated record, else 404. -/
def putPosts (pid : String) (b : PutBody) (s : ServerState) :
    Response × ServerState :=
  match s.posts.find? (fun p => p.id == pid) with
  | some p =>
    ({ status := 200, message := some "Post updated successfully",
       post := some (coalescePost p b) },
     { s with posts := updateFirst pid b s.posts })
  | none =>
    ({ status := 404, message := some "Post not found", post := none }, s)

/-- `splice(findIndex, 1)`: remove the first record whose `id` matches;
`none` when `findIndex` is `-1`. -/
def removeFirst (pid : String) : List Post → Option (List Post)
  | [] => none
  | p :: ps =>
    if p.id == pid then some ps
    else Option.map (fun l => p :: l) (removeFirst pid ps)

/-- `DELETE /posts/:id`: `findIndex` by exact string equality; if found,
`splice` it out and answer 200, else 404. -/
def deletePosts (pid : String) (s : ServerState) : Response × ServerState :=
  match removeFirst pid s.posts with
  | some ps =>
    ({ status := 200, message := some "Post deleted successfully", post := none },
     { s with posts := ps })
  | none =>
    ({ status := 404, message := some "Post not found", post := none }, s)

/-! Concrete requests, records and states used to instantiate the theorems
on specific inputs. -/

/-- A record with the given id and title and no other data, as produced by
a file-less creation. -/
def samplePost (i : String) (t : JVal) : Post :=
  { id := i, title := t, description := JVal.undef, image := JVal.null,
    video := JVal.null, actress := JVal.undef }

/-- A fixed environment: uuids `u`, `w`, `x` and timestamps 1 and 2. -/
def sampleEnv : Env :=
  { imgUuid := "u", imgNow := 1, vidUuid := "w", vidNow := 2, idUuid := "x" }

/-- The server state at startup: no posts, no uploaded files. -/
def emptyState : ServerState := { posts := [], disk := [] }

/-- A file-less creation request with the given `id` field. -/
def sampleReq (i : JVal) : CreateRequest :=
  { id := i, title := JVal.undef, description := JVal.undef,
    actress := JVal.undef, imageFile := none, videoFile := none }

/-- An update body supplying the given `title`, `description` and `actress`
and no other fields. -/
def sampleBody (t d a : JVal) : PutBody :=
  { title := t, description := d, actress := a,
    image := JVal.undef, video := JVal.undef, id := JVal.undef }

/-- Update body used in the claim C4 witness: `{title: "C", description: ""}`. -/
def w4b : PutBody := sampleBody (JVal.str "C") (JVal.str "") JVal.undef

/-- Record used in the claim C4 witness: `{id:"1", title:"A", description:"B"}`. -/
def w4p : Post :=
  { id := "1", title := JVal.str "A", description := JVal.str "B",
    image := JVal.null, video := JVal.null, actress := JVal.undef }

/-- State used in the claim C4 witness. -/
def w4s : ServerState := { posts := [w4p], disk := [] }

/-- Update body used in the claim C6 witness: supplies `image`, `video` and
`id` replacements, which the handler must ignore. -/
def w6b : PutBody :=
  { title := JVal.str "T", description := JVal.undef, actress := JVal.undef,
    image := JVal.str "/uploads/images/evil.png", video := JVal.str "/uploads/videos/evil.mp4",
    id := JVal.str "99" }

/-- Second record of the claim C6 witness state. -/
def w6q : Post := samplePost "2" (JVal.str "other")

/-- State used in the claim C6 witness. -/
def w6s : ServerState := { posts := [w4p, w6q], disk := [] }

/-- An uploaded part sent under the `image` field name but declaring a video
content type. -/
def w1fMp4 : FilePart :=
  { originalname := "a.mp4", mimetype := "video/mp4", content := [7] }

/-- An ordinary image part. -/
def w1fPng : FilePart :=
  { originalname := "a.png", mimetype := "image/png", content := [1, 2] }

/-- Creation request whose `image` part declares content type `video/mp4`. -/
def w1req : CreateRequest :=
  { id := JVal.undef, title := JVal.undef, description := JVal.undef,
    actress := JVal.undef, imageFile := some w1fMp4, videoFile := none }

/-- Creation request with an ordinary image part. -/
def w1req2 : CreateRequest :=
  { id := JVal.undef, title := JVal.undef, description := JVal.undef,
    actress := JVal.undef, imageFile := some w1fPng, videoFile := none }

/-- A pre-existing record with id `42`. -/
def w2old : Post := samplePost "42" (JVal.str "old")

/-- Creation request supplying `id="42"` and a fresh title. -/
def w2req : CreateRequest :=
  { id := JVal.str "42", title := JVal.str "new", description := JVal.undef,
    actress := JVal.undef, imageFile := none, videoFile := none }

/-- State already holding a record with id `42`. -/
def w2s : ServerState := { posts := [w2old], disk := [] }

/-- First of two records sharing id `5`. -/
def w3a : Post := samplePost "5" (JVal.str "first")

/-- Second of two records sharing id `5`. -/
def w3p2 : Post := samplePost "5" (JVal.str "second")

/-- State holding two records with the same id `5`. -/
def w3s : ServerState := { posts := [w3a, w3p2], disk := [] }

/-! Helper lemmas about the repository operations. -/

theorem find_skip_to (pid : String) (l1 : List Post) (p : Post) (l2 : List Post)
    (hl1 : ∀ q ∈ l1, (q.id == pid) = false) (hp : (p.id == pid) = true) :
    (l1 ++ p :: l2).find? (fun q => q.id == pid) = some p := by
  induction l1 with
  | nil =>
    rw [List.nil_append]
    exact List.find?_cons_of_pos l2 hp
  | cons a l ih =>
    have ha : (a.id == pid) = false := hl1 a (by simp)
    rw [List.cons_append, List.find?_cons_of_neg _ (by simp [ha])]
    exact ih (fun q hq => hl1 q (by simp [hq]))

theorem updateFirst_skip_to (pid : String) (b : PutBody) (l1 : List Post)
    (p : Post) (l2 : List Post)
    (hl1 : ∀ q ∈ l1, (q.id == pid) = false) (hp : (p.id == pid) = true) :
    updateFirst pid b (l1 ++ p :: l2) = l1 ++ coalescePost p b :: l2 := by
  induction l1 with
  | nil => simp [updateFirst, hp]
  | cons a l ih =>
    have ha := hl1 a (by simp)
    simp only [List.cons_append, updateFirst, ha]
    simp [ih (fun q hq => hl1 q (by simp [hq]))]

theorem removeFirst_skip_to (pid : String) (l1 : List Post) (p : Post) (l2 : List Post)
    (hl1 : ∀ q ∈ l1, (q.id == pid) = false) (hp : (p.id == pid) = true) :
    removeFirst pid (l1 ++ p :: l2) = some (l1 ++ l2) := by
  induction l1 with
  | nil => simp [removeFirst, hp]
  | cons a l ih =>
    have ha := hl1 a (by simp)
    simp only [List.cons_append, removeFirst, ha]
    simp [ih (fun q hq => hl1 q (by simp [hq]))]

theorem removeFirst_of_absent (pid : String) (l : List Post)
    (h : ∀ q ∈ l, (q.id == pid) = false) : removeFirst pid l = none := by
  induction l with
  | nil => rfl
  | cons a t ih =>
    have ha := h a (by simp)
    simp only [removeFirst, ha]
    simp [ih (fun q hq => h q (by simp [hq]))]

theorem removeFirst_sublist (pid : String) :
    ∀ (l l' : List Post), removeFirst pid l = some l' → List.Sublist l' l := by
  intro l
  induction l with
  | nil => intro l' h; cases h
  | cons a t ih =>
    intro l' h
    cases ha : (a.id == pid) with
    | true =>
      simp only [removeFirst, ha, if_true] at h
      cases h
      exact List.sublist_cons_self a t
    | false =>
      simp only [removeFirst, ha, Bool.false_eq_true, if_false] at h
      cases hrec : removeFirst pid t with
      | none => rw [hrec] at h; cases h
      | some t' =>
        rw [hrec] at h
        have ht : a :: t' = l' := by simpa using h
        subst ht
        exact List.Sublist.cons₂ a (ih t' hrec)

theorem removeFirst_length (pid : String) :
    ∀ (l l' : List Post), removeFirst pid l = some l' → l'.length + 1 = l.length := by
  intro l
  induction l with
  | nil => intro l' h; cases h
  | cons a t ih =>
    intro l' h
    cases ha : (a.id == pid) with
    | true =>
      simp only [removeFirst, ha, if_true] at h
      cases h
      rfl
    | false =>
      simp only [removeFirst, ha, Bool.false_eq_true, if_false] at h
      cases hrec : removeFirst pid t with
      | none => rw [hrec] at h; cases h
      | some t' =>
        rw [hrec] at h
        have ht : a :: t' = l' := by simpa using h
        subst ht
        have := ih t' hrec
        simp only [List.length_cons]
        omega

theorem mem_updateFirst_id (pid : String) (b : PutBody) :
    ∀ (l : List Post) (q : Post), q ∈ updateFirst pid b l → ∃ q₀ ∈ l, q.id = q₀.id := by
  intro l
  induction l with
  | nil => intro q h; cases h
  | cons a t ih =>
    intro q h
    cases ha : (a.id == pid) with
    | true =>
      simp only [updateFirst, ha, if_true] at h
      rcases List.mem_cons.1 h with h1 | h2
      · refine ⟨a, by simp, ?_⟩
        rw [h1]
        rfl
      · exact ⟨q, by simp [h2], rfl⟩
    | false =>
      simp only [updateFirst, ha, Bool.false_eq_true, if_false] at h
      rcases List.mem_cons.1 h with h1 | h2
      · refine ⟨a, by simp, ?_⟩
        rw [h1]
      · rcases ih q h2 with ⟨q₀, hq₀, hq₀id⟩
        exact ⟨q₀, by simp [hq₀], hq₀id⟩

theorem readFile_writeFile_self (p : String) (c : List Nat) :
    ∀ d : Disk, readFile (writeFile d p c) p = some c := by
  intro d
  induction d with
  | nil => simp [writeFile, readFile, List.find?]
  | cons e t ih =>
    cases h : (e.1 == p) with
    | true => simp [writeFile, h, readFile, List.find?]
    | false =>
      simp only [writeFile, h, Bool.false_eq_true, if_false]
      simpa [readFile, List.find?, h] using ih

theorem readFile_writeFile_other (p q : String) (c : List Nat) (hne : q ≠ p) :
    ∀ d : Disk, readFile (writeFile d p c) q = readFile d q := by
  intro d
  have hpq : (p == q) = false := by
    cases hb : (p == q) with
    | false => rfl
    | true =>
      have hp : p = q := by simpa using hb
      exact absurd hp.symm hne
  induction d with
  | nil => simp [writeFile, readFile, List.find?, hpq]
  | cons e t ih =>
    cases h : (e.1 == p) with
    | true =>
      have he : e.1 = p := by simpa using h
      simp [writeFile, h, readFile, List.find?, hpq, he]
    | false =>
      simp only [writeFile, h, Bool.false_eq_true, if_false]
      cases hq : (e.1 == q) with
      | true => simp [readFile, List.find?, hq]
      | false => simpa [readFile, List.find?, hq] using ih

theorem truthy_asString_ne (v : JVal) (h : v.truthy = true) : v.asString ≠ "" := by
  cases v with
  | undef => simp [JVal.truthy] at h
  | null => simp [JVal.truthy] at h
  | str s =>
    intro hs
    have hs' : s = "" := hs
    subst hs'
    simp [JVal.truthy] at h

theorem postPosts_ok (req : CreateRequest) (env : Env) (s : ServerState)
    (hguard : (req.id.truthy && jsIsNaNJ req.id) = false) :
    ∃ p : Post,
      (postPosts req env s).1.post = some p ∧
      (postPosts req env s).1.status = 201 ∧
      (postPosts req env s).1.message = some "Post created successfully" ∧
      (postPosts req env s).2.posts = s.posts ++ [p] ∧
      (postPosts req env s).2.disk = multerSaveFiles req env s.disk ∧
      p.id = (if req.id.truthy then req.id.asString else env.idUuid) ∧
      p.title = req.title ∧ p.description = req.description ∧ p.actress = req.actress ∧
      (req.imageFile = none → p.image = JVal.null) ∧
      (req.videoFile = none → p.video = JVal.null) ∧
      (∀ f, req.imageFile = some f →
        p.image = JVal.str ("/uploads/images/" ++ multerFilename env.imgUuid env.imgNow f)) ∧
      (∀ f, req.videoFile = some f →
        p.video = JVal.str ("/uploads/videos/" ++ multerFilename env.vidUuid env.vidNow f)) := by
  have hbranch : postPosts req env s =
      ({ status := 201, message := some "Post created successfully",
         post := some (newPostOf req env) },
       { posts := s.posts ++ [newPostOf req env],
         disk := multerSaveFiles req env s.disk }) := by
    simp [postPosts, hguard]
  refine ⟨newPostOf req env, ?_, ?_, ?_, ?_, ?_, rfl, rfl, rfl, rfl, ?_, ?_, ?_, ?_⟩
  · rw [hbranch]
  · rw [hbranch]
  · rw [hbranch]
  · rw [hbranch]
  · rw [hbranch]
  · intro h
    simp [newPostOf, uploadedImageRef, h]
  · intro h
    simp [newPostOf, uploadedVideoRef, h]
  · intro f h
    simp [newPostOf, uploadedImageRef, h]
  · intro f h
    simp [newPostOf, uploadedVideoRef, h]

example : jsIsNaN "42" = false := by decide
example : jsIsNaN "abc" = true := by decide
example : jsIsNaN "1e5" = false := by decide
example : jsIsNaN "12.5" = false := by decide
example : jsIsNaN " 42 " = false := by decide
example : jsIsNaN "Infinity" = false := by decide
example : jsIsNaN "" = false := by decide
example : extname "photo.tar.png" = ".png" := by decide
example : extname "noext" = "" := by decide
example : extname ".bashrc" = "" := by decide

/-! Claim theorems. -/

/-- Claim C4: for every existing post and every `PUT /posts/{id}` body, the
update overwrites `title`, `description` and `actress` only where the caller
supplied a truthy replacement value; an empty-string or absent value leaves
the stored field unchanged (coalesce-on-truthy), and the updated record is
returned with status 200. -/
theorem claim4_put_partial_coalesce (pid : String) (b : PutBody) (s : ServerState)
    (p : Post) (hfind : s.posts.find? (fun q => q.id == pid) = some p) :
    (putPosts pid b s).1.status = 200 ∧
    (putPosts pid b s).1.message = some "Post updated successfully" ∧
    (putPosts pid b s).1.post = some (coalescePost p b) ∧
    (coalescePost p b).title = (if b.title.truthy = true then b.title else p.title) ∧
    (coalescePost p b).description =
      (if b.description.truthy = true then b.description else p.description) ∧
    (coalescePost p b).actress = (if b.actress.truthy = true then b.actress else p.actress) := by
  refine ⟨?_, ?_, ?_, rfl, rfl, rfl⟩ <;> simp [putPosts, hfind]

theorem claim4_put_partial_coalesce_witness :
    (putPosts "1" w4b w4s).1.status = 200 ∧
    (putPosts "1" w4b w4s).1.message = some "Post updated successfully" ∧
    (putPosts "1" w4b w4s).1.post = some (coalescePost w4p w4b) ∧
    (coalescePost w4p w4b).title = (if w4b.title.truthy = true then w4b.title else w4p.title) ∧
    (coalescePost w4p w4b).description =
      (if w4b.description.truthy = true then w4b.description else w4p.description) ∧
    (coalescePost w4p w4b).actress =
      (if w4b.actress.truthy = true then w4b.actress else w4p.actress) :=
  claim4_put_partial_coalesce "1" w4b w4s w4p rfl

/-- Claim C5: a creation request whose supplied `id` is a non-empty string
failing JS numeric coercion is rejected with status 400 and message
"ID must be a valid number", no record is added and no record is returned. -/
theorem claim5_invalid_id_rejected (req : CreateRequest) (env : Env) (s : ServerState)
    (v : String) (hid : req.id = JVal.str v) (hnan : jsIsNaN v = true) :
    (postPosts req env s).1.status = 400 ∧
    (postPosts req env s).1.message = some "ID must be a valid number" ∧
    (postPosts req env s).1.post = none ∧
    (postPosts req env s).2.posts = s.posts := by
  have hv : (v == "") = false := by
    cases hb : (v == "") with
    | false => rfl
    | true =>
      have hv' : v = "" := by simpa using hb
      rw [hv'] at hnan
      exact absurd hnan (by decide)
  have hguard : (req.id.truthy && jsIsNaNJ req.id) = true := by
    rw [hid]
    simp [JVal.truthy, jsIsNaNJ, hv, hnan]
  refine ⟨?_, ?_, ?_, ?_⟩ <;> simp [postPosts, hguard]

theorem claim5_invalid_id_rejected_witness :
    (postPosts (sampleReq (JVal.str "abc")) sampleEnv emptyState).1.status = 400 ∧
    (postPosts (sampleReq (JVal.str "abc")) sampleEnv emptyState).1.message =
      some "ID must be a valid number" ∧
    (postPosts (sampleReq (JVal.str "abc")) sampleEnv emptyState).1.post = none ∧
    (postPosts (sampleReq (JVal.str "abc")) sampleEnv emptyState).2.posts = emptyState.posts :=
  claim5_invalid_id_rejected (sampleReq (JVal.str "abc")) sampleEnv emptyState "abc"
    rfl (by decide)

/-- Claim C6: `PUT /posts/{id}` never modifies the addressed record's
`image`, `video` or `id` fields, even when the request body supplies values
for them, and every other record in the collection (and the filesystem) is
left unchanged. -/
theorem claim6_put_preserves_media_id_frame (pid : String) (b : PutBody) (s : ServerState)
    (l1 l2 : List Post) (p : Post)
    (hsplit : s.posts = l1 ++ p :: l2)
    (hl1 : ∀ q ∈ l1, (q.id == pid) = false)
    (hp : (p.id == pid) = true) :
    (putPosts pid b s).2.posts = l1 ++ coalescePost p b :: l2 ∧
    (coalescePost p b).id = p.id ∧
    (coalescePost p b).image = p.image ∧
    (coalescePost p b).video = p.video ∧
    (putPosts pid b s).2.disk = s.disk := by
  have hfind : s.posts.find? (fun q => q.id == pid) = some p := by
    rw [hsplit]
    exact find_skip_to pid l1 p l2 hl1 hp
  have hupd : updateFirst pid b s.posts = l1 ++ coalescePost p b :: l2 := by
    rw [hsplit]
    exact updateFirst_skip_to pid b l1 p l2 hl1 hp
  refine ⟨?_, rfl, rfl, rfl, ?_⟩
  · simp [putPosts, hfind, hupd]
  · simp [putPosts, hfind]

theorem claim6_put_preserves_media_id_frame_witness :
    (putPosts "1" w6b w6s).2.posts = [] ++ coalescePost w4p w6b :: [w6q] ∧
    (coalescePost w4p w6b).id = w4p.id ∧
    (coalescePost w4p w6b).image = w4p.image ∧
    (coalescePost w4p w6b).video = w4p.video ∧
    (putPosts "1" w6b w6s).2.disk = w6s.disk :=
  claim6_put_preserves_media_id_frame "1" w6b w6s [] [w6q] w4p rfl
    (by simp) rfl

/-- Claim C7: every record in the repository has a non-empty id, and the
invariant is preserved by creation, update and delete; creation stores the
caller-supplied id exactly when it is a non-empty value passing numeric
validation, and otherwise stores the generated token. -/
theorem claim7_nonempty_id_invariant (s : ServerState)
    (hs : ∀ p ∈ s.posts, p.id ≠ "")
    (env : Env) (hu : env.idUuid ≠ "")
    (req : CreateRequest) (pid : String) (b : PutBody) :
    (∀ p ∈ (postPosts req env s).2.posts, p.id ≠ "") ∧
    (∀ p ∈ (putPosts pid b s).2.posts, p.id ≠ "") ∧
    (∀ p ∈ (deletePosts pid s).2.posts, p.id ≠ "") ∧
    (req.id.truthy = false →
      ∀ p, (postPosts req env s).1.post = some p → p.id = env.idUuid) ∧
    (∀ v, req.id = JVal.str v → v ≠ "" → jsIsNaN v = false →
      ∀ p, (postPosts req env s).1.post = some p → p.id = v) := by
  have hcreate : ∀ p ∈ (postPosts req env s).2.posts, p.id ≠ "" := by
    cases hguard : (req.id.truthy && jsIsNaNJ req.id) with
    | true =>
      intro p hp
      simp [postPosts, hguard] at hp
      exact hs p hp
    | false =>
      intro p hp
      simp [postPosts, hguard] at hp
      rcases hp with h1 | h2
      · exact hs p h1
      · subst h2
        show (if req.id.truthy then req.id.asString else env.idUuid) ≠ ""
        cases ht : req.id.truthy with
        | true => simpa [ht] using truthy_asString_ne req.id ht
        | false => simpa [ht] using hu
  have hput : ∀ p ∈ (putPosts pid b s).2.posts, p.id ≠ "" := by
    intro p hp
    cases hf : s.posts.find? (fun q => q.id == pid) with
    | none =>
      simp [putPosts, hf] at hp
      exact hs p hp
    | some q =>
      simp [putPosts, hf] at hp
      rcases mem_updateFirst_id pid b s.posts p hp with ⟨q₀, hq₀, hq₀id⟩
      rw [hq₀id]
      exact hs q₀ hq₀
  have hdel : ∀ p ∈ (deletePosts pid s).2.posts, p.id ≠ "" := by
    intro p hp
    cases hr : removeFirst pid s.posts with
    | none =>
      simp [deletePosts, hr] at hp
      exact hs p hp
    | some ps =>
      simp [deletePosts, hr] at hp
      exact hs p ((removeFirst_sublist pid s.posts ps hr).subset hp)
  have hgen : req.id.truthy = false →
      ∀ p, (postPosts req env s).1.post = some p → p.id = env.idUuid := by
    intro ht p hp
    have hguard : (req.id.truthy && jsIsNaNJ req.id) = false := by simp [ht]
    simp [postPosts, hguard] at hp
    rw [← hp]
    simp [newPostOf, ht]
  have hsup : ∀ v, req.id = JVal.str v → v ≠ "" → jsIsNaN v = false →
      ∀ p, (postPosts req env s).1.post = some p → p.id = v := by
    intro v hv hvne hnan p hp
    have ht : req.id.truthy = true := by
      rw [hv]
      simpa [JVal.truthy] using hvne
    have hguard : (req.id.truthy && jsIsNaNJ req.id) = false := by
      rw [hv]
      simp [JVal.truthy, jsIsNaNJ, hnan]
    simp [postPosts, hguard] at hp
    rw [← hp]
    have htv : (JVal.str v).truthy = true := by simpa [JVal.truthy] using hvne
    simp [newPostOf, hv, htv, JVal.asString]
  exact ⟨hcreate, hput, hdel, hgen, hsup⟩

theorem claim7_nonempty_id_invariant_witness :
    (∀ p ∈ (postPosts (sampleReq JVal.undef) sampleEnv emptyState).2.posts, p.id ≠ "") ∧
    (∀ p ∈ (putPosts "1" w4b emptyState).2.posts, p.id ≠ "") ∧
    (∀ p ∈ (deletePosts "1" emptyState).2.posts, p.id ≠ "") ∧
    ((sampleReq JVal.undef).id.truthy = false →
      ∀ p, (postPosts (sampleReq JVal.undef) sampleEnv emptyState).1.post = some p →
        p.id = sampleEnv.idUuid) ∧
    (∀ v, (sampleReq JVal.undef).id = JVal.str v → v ≠ "" → jsIsNaN v = false →
      ∀ p, (postPosts (sampleReq JVal.undef) sampleEnv emptyState).1.post = some p →
        p.id = v) :=
  claim7_nonempty_id_invariant emptyState (by simp [emptyState]) sampleEnv (by decide)
    (sampleReq JVal.undef) "1" w4b

/-- Claim C8: `GET /posts` returns the full collection in insertion order
with no filtering or projection (three posts created in order are listed in
that order), and deletion removes exactly the matched record, preserving the
relative order of the remaining records. -/
theorem claim8_listing_insertion_order (s : ServerState) (r1 r2 r3 : CreateRequest)
    (e1 e2 e3 : Env)
    (h1 : r1.id = JVal.undef) (h2 : r2.id = JVal.undef) (h3 : r3.id = JVal.undef) :
    (getPosts s).1 = 200 ∧
    (getPosts s).2 = s.posts ∧
    (postPosts r1 e1 s).1.post = some (newPostOf r1 e1) ∧
    (postPosts r2 e2 (postPosts r1 e1 s).2).1.post = some (newPostOf r2 e2) ∧
    (postPosts r3 e3 (postPosts r2 e2 (postPosts r1 e1 s).2).2).1.post =
      some (newPostOf r3 e3) ∧
    (getPosts (postPosts r3 e3 (postPosts r2 e2 (postPosts r1 e1 s).2).2).2).2 =
      s.posts ++ [newPostOf r1 e1, newPostOf r2 e2, newPostOf r3 e3] ∧
    (∀ (pid : String) (t : ServerState) (ps : List Post),
      removeFirst pid t.posts = some ps →
      (deletePosts pid t).2.posts = ps ∧ List.Sublist ps t.posts ∧
      ps.length + 1 = t.posts.length) := by
  have hg1 : (r1.id.truthy && jsIsNaNJ r1.id) = false := by simp [h1, JVal.truthy]
  have hg2 : (r2.id.truthy && jsIsNaNJ r2.id) = false := by simp [h2, JVal.truthy]
  have hg3 : (r3.id.truthy && jsIsNaNJ r3.id) = false := by simp [h3, JVal.truthy]
  refine ⟨rfl, rfl, ?_, ?_, ?_, ?_, ?_⟩
  · simp [postPosts, hg1]
  · simp [postPosts, hg2]
  · simp [postPosts, hg3]
  · simp [postPosts, hg1, hg2, hg3, getPosts]
  · intro pid t ps hrm
    exact ⟨by simp [deletePosts, hrm], removeFirst_sublist pid t.posts ps hrm,
      removeFirst_length pid t.posts ps hrm⟩

theorem claim8_listing_insertion_order_witness :
    (getPosts emptyState).1 = 200 ∧
    (getPosts emptyState).2 = emptyState.posts ∧
    (postPosts (sampleReq JVal.undef) sampleEnv emptyState).1.post =
      some (newPostOf (sampleReq JVal.undef) sampleEnv) ∧
    (postPosts (sampleReq JVal.undef) sampleEnv
        (postPosts (sampleReq JVal.undef) sampleEnv emptyState).2).1.post =
      some (newPostOf (sampleReq JVal.undef) sampleEnv) ∧
    (postPosts (sampleReq JVal.undef) sampleEnv
        (postPosts (sampleReq JVal.undef) sampleEnv
          (postPosts (sampleReq JVal.undef) sampleEnv emptyState).2).2).1.post =
      some (newPostOf (sampleReq JVal.undef) sampleEnv) ∧
    (getPosts (postPosts (sampleReq JVal.undef) sampleEnv
        (postPosts (sampleReq JVal.undef) sampleEnv
          (postPosts (sampleReq JVal.undef) sampleEnv emptyState).2).2).2).2 =
      emptyState.posts ++ [newPostOf (sampleReq JVal.undef) sampleEnv,
        newPostOf (sampleReq JVal.undef) sampleEnv,
        newPostOf (sampleReq JVal.undef) sampleEnv] ∧
    (∀ (pid : String) (t : ServerState) (ps : List Post),
      removeFirst pid t.posts = some ps →
      (deletePosts pid t).2.posts = ps ∧ List.Sublist ps t.posts ∧
      ps.length + 1 = t.posts.length) :=
  claim8_listing_insertion_order emptyState (sampleReq JVal.undef) (sampleReq JVal.undef)
    (sampleReq JVal.undef) sampleEnv sampleEnv sampleEnv rfl rfl rfl

/-- Claim C9: a creation request without an image (resp. video) file part
stores the literal JS `null` in the record's `image` (resp. `video`) field —
present and equal to null, not absent — and that value appears in the 201
response and in the record as stored for all subsequent reads. -/
theorem claim9_missing_file_yields_null (req : CreateRequest) (env : Env) (s : ServerState)
    (hguard : (req.id.truthy && jsIsNaNJ req.id) = false) :
    (postPosts req env s).1.status = 201 ∧
    (postPosts req env s).1.post = some (newPostOf req env) ∧
    (postPosts req env s).2.posts = s.posts ++ [newPostOf req env] ∧
    (req.imageFile = none →
      (newPostOf req env).image = JVal.null ∧ (newPostOf req env).image ≠ JVal.undef) ∧
    (req.videoFile = none →
      (newPostOf req env).video = JVal.null ∧ (newPostOf req env).video ≠ JVal.undef) := by
  refine ⟨?_, ?_, ?_, ?_, ?_⟩
  · simp [postPosts, hguard]
  · simp [postPosts, hguard]
  · simp [postPosts, hguard]
  · intro h
    constructor <;> simp [newPostOf, uploadedImageRef, h]
  · intro h
    constructor <;> simp [newPostOf, uploadedVideoRef, h]

theorem claim9_missing_file_yields_null_witness :
    (postPosts (sampleReq JVal.undef) sampleEnv emptyState).1.status = 201 ∧
    (postPosts (sampleReq JVal.undef) sampleEnv emptyState).1.post =
      some (newPostOf (sampleReq JVal.undef) sampleEnv) ∧
    (postPosts (sampleReq JVal.undef) sampleEnv emptyState).2.posts =
      emptyState.posts ++ [newPostOf (sampleReq JVal.undef) sampleEnv] ∧
    ((sampleReq JVal.undef).imageFile = none →
      (newPostOf (sampleReq JVal.undef) sampleEnv).image = JVal.null ∧
      (newPostOf (sampleReq JVal.undef) sampleEnv).image ≠ JVal.undef) ∧
    ((sampleReq JVal.undef).videoFile = none →
      (newPostOf (sampleReq JVal.undef) sampleEnv).video = JVal.null ∧
      (newPostOf (sampleReq JVal.undef) sampleEnv).video ≠ JVal.undef) :=
  claim9_missing_file_yields_null (sampleReq JVal.undef) sampleEnv emptyState rfl

/-- Claim C10: the creation validator accepts any supplied id string whose
JS numeric coercion is not NaN (`1e5`, `12.5`, whitespace-padded `42`,
`Infinity`), storing it verbatim as the record id, while a supplied
empty-string id is treated as omitted and replaced by the generated token. -/
theorem claim10_numeric_coercion_ids (s : ServerState) (env : Env)
    (req : CreateRequest) (v : String)
    (hv : req.id = JVal.str v) (hne : v ≠ "") (hnum : jsIsNaN v = false) :
    ((postPosts req env s).1.status = 201 ∧
     (postPosts req env s).1.post = some (newPostOf req env) ∧
     (newPostOf req env).id = v) ∧
    jsIsNaN "1e5" = false ∧
    jsIsNaN "12.5" = false ∧
    jsIsNaN " 42 " = false ∧
    jsIsNaN "Infinity" = false ∧
    (∀ (s' : ServerState) (env' : Env) (req' : CreateRequest),
      req'.id = JVal.str "" →
      (postPosts req' env' s').1.post = some (newPostOf req' env') ∧
      (newPostOf req' env').id = env'.idUuid) := by
  have ht : req.id.truthy = true := by
    rw [hv]
    simpa [JVal.truthy] using hne
  have hguard : (req.id.truthy && jsIsNaNJ req.id) = false := by
    rw [hv]
    simp [JVal.truthy, jsIsNaNJ, hnum]
  refine ⟨⟨?_, ?_, ?_⟩, by decide, by decide, by decide, by decide, ?_⟩
  · simp [postPosts, hguard]
  · simp [postPosts, hguard]
  · have htv : (JVal.str v).truthy = true := by simpa [JVal.truthy] using hne
    simp [newPostOf, hv, htv, JVal.asString]
  · intro s' env' req' hid'
    have ht' : req'.id.truthy = false := by
      rw [hid']
      simp [JVal.truthy]
    have hguard' : (req'.id.truthy && jsIsNaNJ req'.id) = false := by simp [ht']
    exact ⟨by simp [postPosts, hguard'], by simp [newPostOf, ht']⟩

theorem claim10_numeric_coercion_ids_witness :
    ((postPosts (sampleReq (JVal.str " 42 ")) sampleEnv emptyState).1.status = 201 ∧
     (postPosts (sampleReq (JVal.str " 42 ")) sampleEnv emptyState).1.post =
       some (newPostOf (sampleReq (JVal.str " 42 ")) sampleEnv) ∧
     (newPostOf (sampleReq (JVal.str " 42 ")) sampleEnv).id = " 42 ") ∧
    jsIsNaN "1e5" = false ∧
    jsIsNaN "12.5" = false ∧
    jsIsNaN " 42 " = false ∧
    jsIsNaN "Infinity" = false ∧
    (∀ (s' : ServerState) (env' : Env) (req' : CreateRequest),
      req'.id = JVal.str "" →
      (postPosts req' env' s').1.post = some (newPostOf req' env') ∧
      (newPostOf req' env').id = env'.idUuid) :=
  claim10_numeric_coercion_ids emptyState sampleEnv (sampleReq (JVal.str " 42 ")) " 42 "
    rfl (by decide) (by decide)

/-- Claim C1 counterexample: an `image` file part declaring content type
`video/mp4` is written by the storage engine to `uploads/videos/u-1.mp4`,
yet the 201 response's `post.image` references `/uploads/images/u-1.mp4`,
where no file exists — the public reference path does not point to the
directory the file was written to. -/
theorem claim1_image_path_counterexample :
    (postPosts w1req sampleEnv emptyState).1.status = 201 ∧
    (postPosts w1req sampleEnv emptyState).1.post.map Post.image =
      some (JVal.str "/uploads/images/u-1.mp4") ∧
    readFile (postPosts w1req sampleEnv emptyState).2.disk
      "uploads/images/u-1.mp4" = none ∧
    readFile (postPosts w1req sampleEnv emptyState).2.disk
      "uploads/videos/u-1.mp4" = some [7] :=
  ⟨rfl, rfl, rfl, rfl⟩

/-- Claim C1 (amended): for every successful creation request whose image
part's declared content type does not begin with `video`, the response's
`post.image` is `/uploads/images/<generated filename>`, that is exactly the
directory the storage engine chose, and the uploaded bytes are on disk at
that path (provided the video part, if any, was not stored at the same
path — uuid freshness). -/
theorem claim1_image_roundtrip_amended (req : CreateRequest) (env : Env)
    (s : ServerState) (f : FilePart)
    (hf : req.imageFile = some f)
    (hmt : jsStartsWith f.mimetype "video" = false)
    (hguard : (req.id.truthy && jsIsNaNJ req.id) = false)
    (hsep : ∀ g, req.videoFile = some g →
      multerPath env.vidUuid env.vidNow g ≠ multerPath env.imgUuid env.imgNow f) :
    (postPosts req env s).1.status = 201 ∧
    (postPosts req env s).1.post = some (newPostOf req env) ∧
    (newPostOf req env).image =
      JVal.str ("/uploads/images/" ++ multerFilename env.imgUuid env.imgNow f) ∧
    multerPath env.imgUuid env.imgNow f =
      "uploads/images/" ++ multerFilename env.imgUuid env.imgNow f ∧
    readFile (postPosts req env s).2.disk
      (multerPath env.imgUuid env.imgNow f) = some f.content := by
  have hdest : multerDest f = "uploads/images" := by
    simp [multerDest, hmt]
  have happ : ("uploads/images" : String) ++ "/" = "uploads/images/" := by decide
  have hpath : multerPath env.imgUuid env.imgNow f =
      "uploads/images/" ++ multerFilename env.imgUuid env.imgNow f := by
    rw [multerPath, hdest, happ]
  have hdisk : (postPosts req env s).2.disk = multerSaveFiles req env s.disk := by
    simp [postPosts, hguard]
  refine ⟨by simp [postPosts, hguard], by simp [postPosts, hguard],
    by simp [newPostOf, uploadedImageRef, hf], hpath, ?_⟩
  rw [hdisk]
  cases hvf : req.videoFile with
  | none =>
    simp only [multerSaveFiles, hf, hvf]
    exact readFile_writeFile_self _ _ s.disk
  | some g =>
    have hne : multerPath env.imgUuid env.imgNow f ≠ multerPath env.vidUuid env.vidNow g :=
      (hsep g hvf).symm
    simp only [multerSaveFiles, hf, hvf]
    rw [readFile_writeFile_other _ _ _ hne]
    exact readFile_writeFile_self _ _ s.disk

theorem claim1_image_roundtrip_amended_witness :
    (postPosts w1req2 sampleEnv emptyState).1.status = 201 ∧
    (postPosts w1req2 sampleEnv emptyState).1.post = some (newPostOf w1req2 sampleEnv) ∧
    (newPostOf w1req2 sampleEnv).image =
      JVal.str ("/uploads/images/" ++
        multerFilename sampleEnv.imgUuid sampleEnv.imgNow w1fPng) ∧
    multerPath sampleEnv.imgUuid sampleEnv.imgNow w1fPng =
      "uploads/images/" ++ multerFilename sampleEnv.imgUuid sampleEnv.imgNow w1fPng ∧
    readFile (postPosts w1req2 sampleEnv emptyState).2.disk
      (multerPath sampleEnv.imgUuid sampleEnv.imgNow w1fPng) = some w1fPng.content :=
  claim1_image_roundtrip_amended w1req2 sampleEnv emptyState w1fPng rfl (by decide) rfl
    (by intro g hg; simp [w1req2] at hg)

/-- Claim C2 counterexample: when a record with id `42` already exists,
creating another post with `id="42"` succeeds, but `GET /posts/42` returns
the pre-existing record (the first match), not the record just created. -/
theorem claim2_get_after_create_counterexample :
    (postPosts w2req sampleEnv w2s).1.status = 201 ∧
    (getPostById "42" (postPosts w2req sampleEnv w2s).2).post = some w2old ∧
    (getPostById "42" (postPosts w2req sampleEnv w2s).2).post ≠
      (postPosts w2req sampleEnv w2s).1.post :=
  ⟨rfl, rfl, by decide⟩

/-- Claim C2 (amended): provided no existing record has id `42`, creation
with the numeric-string id `42` succeeds with a 201 response carrying the
full record, and a subsequent `GET /posts/42` returns exactly the record
just created; lookup is exact string equality (a record whose id `042` is
only numerically equal is not found). -/
theorem claim2_create_then_get_amended (req : CreateRequest) (env : Env) (s : ServerState)
    (hid : req.id = JVal.str "42")
    (hfresh : ∀ q ∈ s.posts, (q.id == "42") = false) :
    (postPosts req env s).1.status = 201 ∧
    (postPosts req env s).1.message = some "Post created successfully" ∧
    (postPosts req env s).1.post = some (newPostOf req env) ∧
    (newPostOf req env).id = "42" ∧
    (postPosts req env s).2.posts = s.posts ++ [newPostOf req env] ∧
    getPostById "42" (postPosts req env s).2 =
      { status := 200, message := none, post := some (newPostOf req env) } ∧
    (getPostById "42"
      { posts := [samplePost "042" JVal.undef], disk := [] }).status = 404 := by
  have h42 : jsIsNaN "42" = false := by decide
  have hguard : (req.id.truthy && jsIsNaNJ req.id) = false := by
    rw [hid]
    simp [jsIsNaNJ, h42]
  have htv : (JVal.str "42").truthy = true := by decide
  have hidnew : (newPostOf req env).id = "42" := by
    simp [newPostOf, hid, htv, JVal.asString]
  have hposts : (postPosts req env s).2.posts = s.posts ++ [newPostOf req env] := by
    simp [postPosts, hguard]
  have hfind : (postPosts req env s).2.posts.find? (fun q => q.id == "42") =
      some (newPostOf req env) := by
    rw [hposts]
    exact find_skip_to "42" s.posts (newPostOf req env) [] hfresh (by simp [hidnew])
  refine ⟨by simp [postPosts, hguard], by simp [postPosts, hguard],
    by simp [postPosts, hguard], hidnew, hposts, ?_, by decide⟩
  simp [getPostById, hfind]

theorem claim2_create_then_get_amended_witness :
    (postPosts w2req sampleEnv emptyState).1.status = 201 ∧
    (postPosts w2req sampleEnv emptyState).1.message = some "Post created successfully" ∧
    (postPosts w2req sampleEnv emptyState).1.post = some (newPostOf w2req sampleEnv) ∧
    (newPostOf w2req sampleEnv).id = "42" ∧
    (postPosts w2req sampleEnv emptyState).2.posts =
      emptyState.posts ++ [newPostOf w2req sampleEnv] ∧
    getPostById "42" (postPosts w2req sampleEnv emptyState).2 =
      { status := 200, message := none, post := some (newPostOf w2req sampleEnv) } ∧
    (getPostById "42"
      { posts := [samplePost "042" JVal.undef], disk := [] }).status = 404 :=
  claim2_create_then_get_amended w2req sampleEnv emptyState rfl (by simp [emptyState])

/-- Claim C3 counterexample: when two records share id `5`, a successful
`DELETE /posts/5` removes only the first, and the following `GET /posts/5`
returns status 200 (the surviving duplicate), not 404. -/
theorem claim3_delete_then_get_counterexample :
    (deletePosts "5" w3s).1.status = 200 ∧
    (getPostById "5" (deletePosts "5" w3s).2).status = 200 ∧
    (getPostById "5" (deletePosts "5" w3s).2).status ≠ 404 :=
  ⟨rfl, rfl, by decide⟩

/-- Claim C3 (amended): provided the deleted record is the only one with its
id, `DELETE /posts/{id}` answers 200 and removes exactly that record, the
following `GET` answers 404 `Post not found`, a repeated `DELETE` answers
404 without mutating, and in general every operation addressing an id
matching no record answers 404 and leaves the state unchanged. -/
theorem claim3_delete_then_get_amended (pid : String) (s : ServerState)
    (l1 l2 : List Post) (p : Post) (b : PutBody)
    (hsplit : s.posts = l1 ++ p :: l2)
    (hp : (p.id == pid) = true)
    (hl1 : ∀ q ∈ l1, (q.id == pid) = false)
    (hl2 : ∀ q ∈ l2, (q.id == pid) = false) :
    (deletePosts pid s).1.status = 200 ∧
    (deletePosts pid s).1.message = some "Post deleted successfully" ∧
    (deletePosts pid s).2.posts = l1 ++ l2 ∧
    (getPostById pid (deletePosts pid s).2).status = 404 ∧
    (getPostById pid (deletePosts pid s).2).message = some "Post not found" ∧
    (deletePosts pid (deletePosts pid s).2).1.status = 404 ∧
    (deletePosts pid (deletePosts pid s).2).2 = (deletePosts pid s).2 ∧
    (∀ t : ServerState, (∀ q ∈ t.posts, (q.id == pid) = false) →
      getPostById pid t =
        { status := 404, message := some "Post not found", post := none } ∧
      putPosts pid b t =
        ({ status := 404, message := some "Post not found", post := none }, t) ∧
      deletePosts pid t =
        ({ status := 404, message := some "Post not found", post := none }, t)) := by
  have hrm : removeFirst pid s.posts = some (l1 ++ l2) := by
    rw [hsplit]
    exact removeFirst_skip_to pid l1 p l2 hl1 hp
  have hposts : (deletePosts pid s).2.posts = l1 ++ l2 := by
    simp [deletePosts, hrm]
  have habsent : ∀ q ∈ l1 ++ l2, (q.id == pid) = false := by
    intro q hq
    rcases List.mem_append.1 hq with h | h
    · exact hl1 q h
    · exact hl2 q h
  have hnotfound : ∀ t : ServerState, (∀ q ∈ t.posts, (q.id == pid) = false) →
      getPostById pid t =
        { status := 404, message := some "Post not found", post := none } ∧
      putPosts pid b t =
        ({ status := 404, message := some "Post not found", post := none }, t) ∧
      deletePosts pid t =
        ({ status := 404, message := some "Post not found", post := none }, t) := by
    intro t ht
    have hfind : t.posts.find? (fun q => q.id == pid) = none := by
      rw [List.find?_eq_none]
      intro x hx
      simp [ht x hx]
    have hrm' : removeFirst pid t.posts = none := removeFirst_of_absent pid t.posts ht
    exact ⟨by simp [getPostById, hfind], by simp [putPosts, hfind],
      by simp [deletePosts, hrm']⟩
  have hstate2 : ∀ q ∈ (deletePosts pid s).2.posts, (q.id == pid) = false := by
    rw [hposts]
    exact habsent
  refine ⟨by simp [deletePosts, hrm], by simp [deletePosts, hrm], hposts, ?_, ?_, ?_, ?_,
    hnotfound⟩
  · rw [(hnotfound _ hstate2).1]
  · rw [(hnotfound _ hstate2).1]
  · rw [(hnotfound _ hstate2).2.2]
  · rw [(hnotfound _ hstate2).2.2]

theorem claim3_delete_then_get_amended_witness :
    (deletePosts "5" { posts := [w3a], disk := [] }).1.status = 200 ∧
    (deletePosts "5" { posts := [w3a], disk := [] }).1.message =
      some "Post deleted successfully" ∧
    (deletePosts "5" { posts := [w3a], disk := [] }).2.posts = [] ++ [] ∧
    (getPostById "5" (deletePosts "5" { posts := [w3a], disk := [] }).2).status = 404 ∧
    (getPostById "5" (deletePosts "5" { posts := [w3a], disk := [] }).2).message =
      some "Post not found" ∧
    (deletePosts "5" (deletePosts "5" { posts := [w3a], disk := [] }).2).1.status = 404 ∧
    (deletePosts "5" (deletePosts "5" { posts := [w3a], disk := [] }).2).2 =
      (deletePosts "5" { posts := [w3a], disk := [] }).2 ∧
    (∀ t : ServerState, (∀ q ∈ t.posts, (q.id == "5") = false) →
      getPostById "5" t =
        { status := 404, message := some "Post not found", post := none } ∧
      putPosts "5" w4b t =
        ({ status := 404, message := some "Post not found", post := none }, t) ∧
      deletePosts "5" t =
        ({ status := 404, message := some "Post not found", post := none }, t)) :=
  claim3_delete_then_get_amended "5" { posts := [w3a], disk := [] } [] [] w3a w4b
    rfl rfl (by simp) (by simp)
